import Mathlib

/-!
# go-skeleton: configuration and credential subsystem

A shallow embedding of the functions of `app/commands/generate_jwt_secret.go`,
`configs/bcrypt.go`, `configs/jwt.go`, `configs/env_config.go` and
`configs/database.go`, with the properties of the specification stated and
settled against them.

Go strings are byte sequences, so a Go `string` is a `List UInt8` here and
`len` is `List.length`.  Calls that leave the process (the clock, bcrypt, the
JWT library, `database/sql`, gorm) are explicit parameters, and every
function that performs such calls returns the list of calls it made next to
its result.
-/

set_option autoImplicit false

namespace GoSkeleton

/-! ## Go strings -/

/-- A Go string: an immutable sequence of bytes. -/
abbrev GoString := List UInt8

/-- The bytes (UTF-8) of a string literal of the source. -/
def lit (s : String) : GoString := s.toList.flatMap String.utf8EncodeChar

/-- The byte of the line separator "\n". -/
def nl : UInt8 := 10

/-- Equality of Go results (a value or an error) is decidable. -/
instance instDecidableEqExcept {ε α : Type} [DecidableEq ε] [DecidableEq α] :
    DecidableEq (Except ε α)
  | .ok a, .ok b => if h : a = b then isTrue (by rw [h]) else isFalse (fun e => h (by cases e; rfl))
  | .error a, .error b =>
    if h : a = b then isTrue (by rw [h]) else isFalse (fun e => h (by cases e; rfl))
  | .ok _, .error _ => isFalse (fun e => by cases e)
  | .error _, .ok _ => isFalse (fun e => by cases e)

/-! ### Package `strings` -/

/-- Go `strings.Split(s, "\n")`: the pieces of `s` between the newline bytes; a
string without newline (the empty one too) gives the one-element list. -/
def Split : GoString → List GoString
  | [] => [[]]
  | c :: cs =>
    if c = nl then [] :: Split cs
    else
      match Split cs with
      | [] => [[c]]
      | l :: ls => (c :: l) :: ls

/-- Go `strings.Join(elems, "\n")`. -/
def Join : List GoString → GoString
  | [] => []
  | [l] => l
  | l :: l2 :: ls => l ++ nl :: Join (l2 :: ls)

/-- Go `strings.HasPrefix(s, prefix)`. -/
def HasPrefix (s pre : GoString) : Bool := pre.isPrefixOf s

/-- Go `strings.HasSuffix(s, suffix)`. -/
def HasSuffix (s suf : GoString) : Bool := suf.isSuffixOf s

/-- The ASCII white space of `strings.TrimSpace`:
'\t', '\n', '\v', '\f', '\r' and ' '. -/
def isAsciiSpace (c : UInt8) : Bool :=
  c = 9 || c = 10 || c = 11 || c = 12 || c = 13 || c = 32

/-- The two-byte UTF-8 encodings of white space: U+0085 and U+00A0. -/
def isSpace2 (a b : UInt8) : Bool :=
  a = 0xC2 && (b = 0x85 || b = 0xA0)

/-- The three-byte UTF-8 encodings of white space (`unicode.IsSpace` beyond
Latin-1): U+1680, U+2000..U+200A, U+2028, U+2029, U+202F, U+205F, U+3000. -/
def isSpace3 (a b c : UInt8) : Bool :=
  (a = 0xE1 && b = 0x9A && c = 0x80) ||
  (a = 0xE2 && b = 0x80 && ((0x80 ≤ c.toNat && c.toNat ≤ 0x8A) || c = 0xA8 || c = 0xA9 || c = 0xAF)) ||
  (a = 0xE2 && b = 0x81 && c = 0x9F) ||
  (a = 0xE3 && b = 0x80 && c = 0x80)

/-- Width in bytes of the white-space character `s` starts with, 0 when `s`
does not start with white space. -/
def leadingSpaceWidth : GoString → Nat
  | [] => 0
  | [a] => if isAsciiSpace a then 1 else 0
  | [a, b] => if isAsciiSpace a then 1 else if isSpace2 a b then 2 else 0
  | a :: b :: c :: _ =>
    if isAsciiSpace a then 1 else if isSpace2 a b then 2
    else if isSpace3 a b c then 3 else 0

/-- Width in bytes of the white-space character that ends the string whose
reversal is given, 0 when it does not end with white space. -/
def trailingSpaceWidthRev : GoString → Nat
  | [] => 0
  | [a] => if isAsciiSpace a then 1 else 0
  | [a, b] => if isAsciiSpace a then 1 else if isSpace2 b a then 2 else 0
  | a :: b :: c :: _ =>
    if isAsciiSpace a then 1 else if isSpace2 b a then 2
    else if isSpace3 c b a then 3 else 0

/-- Removal of leading white space, one character per unit of fuel. -/
def trimLeftAux : Nat → GoString → GoString
  | 0, s => s
  | n + 1, s =>
    if leadingSpaceWidth s = 0 then s else trimLeftAux n (s.drop (leadingSpaceWidth s))

/-- Removal of trailing white space from a reversed string. -/
def trimRightRevAux : Nat → GoString → GoString
  | 0, r => r
  | n + 1, r =>
    if trailingSpaceWidthRev r = 0 then r
    else trimRightRevAux n (r.drop (trailingSpaceWidthRev r))

/-- Go `strings.TrimLeftFunc(s, unicode.IsSpace)`. -/
def TrimLeft (s : GoString) : GoString := trimLeftAux s.length s

/-- Go `strings.TrimRightFunc(s, unicode.IsSpace)`. -/
def TrimRight (s : GoString) : GoString := (trimRightRevAux s.length s.reverse).reverse

/-- Go `strings.TrimSpace(s)`: `s` without its leading and trailing white space,
as defined by Unicode. -/
def TrimSpace (s : GoString) : GoString := TrimRight (TrimLeft s)

/-! ## `app/commands/generate_jwt_secret.go` -/

/-- Go `fmt.Sprintf("%s=\"%s\"", key, value)`. -/
def envLine (key value : GoString) : GoString :=
  key ++ lit "=\"" ++ value ++ lit "\""

/-- The variables the loop of `updateEnvKey` updates. -/
structure LoopState where
  keyFound : Bool
  updatedLines : List GoString
deriving DecidableEq

/-- One iteration of `for _, line := range lines` in `updateEnvKey`. -/
def loopBody (key value : GoString) (st : LoopState) (line : GoString) : LoopState :=
  let trimmed := TrimSpace line
  if trimmed = [] || HasPrefix trimmed (lit "#") then
    { st with updatedLines := st.updatedLines ++ [line] }
  else if HasPrefix trimmed (key ++ lit "=") then
    { keyFound := true, updatedLines := st.updatedLines ++ [envLine key value] }
  else
    { st with updatedLines := st.updatedLines ++ [line] }

/-- Go `updateEnvKey(envContent, key, value)`. -/
def updateEnvKey (envContent key value : GoString) : GoString :=
  let lines := Split envContent
  let st := lines.foldl (loopBody key value) { keyFound := false, updatedLines := [] }
  let updatedLines :=
    if !st.keyFound then
      let withBlank :=
        if envContent.length > 0 && !HasSuffix envContent (lit "\n") then
          st.updatedLines ++ [[]]
        else st.updatedLines
      withBlank ++ [envLine key value]
    else st.updatedLines
  Join updatedLines

/-! ### Vocabulary of the specification for `updateEnvKey` -/

/-- A line is blank when nothing but white space is on it. -/
def isBlankLine (line : GoString) : Bool := TrimSpace line = []

/-- A line is a comment when its first non-blank character is '#'. -/
def isCommentLine (line : GoString) : Bool := HasPrefix (TrimSpace line) (lit "#")

/-- A line matches `key` when it is neither blank nor a comment and its
trimmed text starts with `key=`. -/
def lineMatches (key line : GoString) : Bool :=
  !isBlankLine line && !isCommentLine line && HasPrefix (TrimSpace line) (key ++ lit "=")

/-- The line-by-line rewrite of the specification: a matching line becomes
`key="value"`, every other line stays. -/
def rewriteLine (key value line : GoString) : GoString :=
  if lineMatches key line then envLine key value else line

/-! ## Package `unicode/utf8`: counting characters -/

/-- Length in bytes that the first byte of a UTF-8 sequence announces; 0 for a
byte that cannot start a sequence (0x80..0xC1 and 0xF5..0xFF). -/
def firstSize (c : Nat) : Nat :=
  if c < 0x80 then 1 else if c < 0xC2 then 0 else if c ≤ 0xDF then 2
  else if c ≤ 0xEF then 3 else if c ≤ 0xF4 then 4 else 0

/-- The range accepted for the second byte after the first byte `c`. -/
def acceptsSecond (c s1 : Nat) : Bool :=
  (if c = 0xE0 then 0xA0 else if c = 0xF0 then 0x90 else 0x80) ≤ s1 &&
  s1 ≤ (if c = 0xED then 0x9F else if c = 0xF4 then 0x8F else 0xBF)

/-- A continuation byte, 0x80..0xBF. -/
def isContinuation (c : Nat) : Bool := 0x80 ≤ c && c ≤ 0xBF

/-- Width of the first rune of a non-empty string, as `utf8.DecodeRuneInString`
reports it: a byte that starts no valid encoding counts as a rune of width 1. -/
def runeWidth : GoString → Nat
  | [] => 0
  | [_] => 1
  | [s0, s1] =>
    if firstSize s0.toNat = 2 && acceptsSecond s0.toNat s1.toNat then 2 else 1
  | [s0, s1, s2] =>
    if firstSize s0.toNat = 2 && acceptsSecond s0.toNat s1.toNat then 2
    else if firstSize s0.toNat = 3 && acceptsSecond s0.toNat s1.toNat
        && isContinuation s2.toNat then 3
    else 1
  | s0 :: s1 :: s2 :: s3 :: _ =>
    if firstSize s0.toNat = 2 && acceptsSecond s0.toNat s1.toNat then 2
    else if firstSize s0.toNat = 3 && acceptsSecond s0.toNat s1.toNat
        && isContinuation s2.toNat then 3
    else if firstSize s0.toNat = 4 && acceptsSecond s0.toNat s1.toNat
        && isContinuation s2.toNat && isContinuation s3.toNat then 4
    else 1

/-- The loop of `utf8.RuneCountInString`, one rune per unit of fuel. -/
def runeCountAux : Nat → GoString → Nat
  | 0, _ => 0
  | _ + 1, [] => 0
  | n + 1, c :: cs => 1 + runeCountAux n ((c :: cs).drop (runeWidth (c :: cs)))

/-- Go `utf8.RuneCountInString(s)`: the number of characters (runes) of `s`. -/
def RuneCountInString (s : GoString) : Nat := runeCountAux s.length s

/-! ## `configs/bcrypt.go` -/

/-- A call of `bcrypt.GenerateFromPassword(password, cost)`. -/
structure BcryptCall where
  password : GoString
  cost : Nat
deriving DecidableEq

/-- Go `bcrypt.DefaultCost`. -/
def DefaultCost : Nat := 10

/-- Go `HashPassword(password)`: the calls made to the hash primitive
`GenerateFromPassword`, and the returned pair as a result (an error is its
message). -/
def HashPassword (GenerateFromPassword : GoString → Nat → Except GoString GoString)
    (password : GoString) : List BcryptCall × Except GoString GoString :=
  if password.length < 8 then
    ([], .error (lit "password must be at least 8 characters"))
  else
    match GenerateFromPassword password DefaultCost with
    | .error err => ([{ password := password, cost := DefaultCost }], .error err)
    | .ok hashedPassword => ([{ password := password, cost := DefaultCost }], .ok hashedPassword)

/-! ## `configs/env_config.go` -/

/-- The process environment as `os.Getenv` reads it: a variable that is not
set reads as the empty string. -/
abbrev Env := GoString → GoString

/-- Go `GetEnv(key)`. -/
def GetEnv (env : Env) (key : GoString) : Except GoString GoString :=
  let value := env key
  if value = [] then
    .error (lit "environment variable " ++ key ++ lit " is not set")
  else .ok value

/-- Go `GetEnvOrDefault(key, defaultValue)`. -/
def GetEnvOrDefault (env : Env) (key defaultValue : GoString) : GoString :=
  let value := env key
  if value = [] then defaultValue else value

/-! ## `configs/jwt.go` -/

/-- A `time.Time`, as the number of nanoseconds since the Unix epoch. -/
abbrev Time := Int

/-- Go `time.Second`, a duration in nanoseconds. -/
def Second : Int := 1000000000

/-- Go `time.Hour`. -/
def Hour : Int := 3600 * Second

/-- Nanoseconds from the zero `time.Time` (year 1) to the Unix epoch. -/
def unixToInternal : Int := 62135596800 * Second

/-- Go `t.Add(d)`. -/
def timeAdd (t : Time) (d : Int) : Time := t + d

/-- Go `t.Truncate(d)` for a positive `d`: `t` rounded down to a multiple of `d`
since the zero time. -/
def timeTruncate (t : Time) (d : Int) : Time := t - (t + unixToInternal) % d

/-- Go `jwt.NewNumericDate(t)`: `t` truncated to `jwt.TimePrecision`, one second. -/
def NewNumericDate (t : Time) : Time := timeTruncate t Second

/-- Go `jwt.RegisteredClaims`, the two fields the code sets. -/
structure RegisteredClaims where
  ExpiresAt : Option Time
  IssuedAt : Option Time
deriving DecidableEq

/-- Go `JWTClaims`. -/
structure JWTClaims where
  UserID : GoString
  Email : GoString
  Registered : RegisteredClaims
deriving DecidableEq

/-- The Go type of a signing method of the JWT library. -/
inductive MethodFamily
  | HMAC | RSA | RSAPSS | ECDSA | Ed25519 | None
deriving DecidableEq

/-- A `jwt.SigningMethod`: its Go type and its `Alg()` name. -/
structure SigningMethod where
  family : MethodFamily
  alg : GoString
deriving DecidableEq

/-- Go `jwt.SigningMethodHS256`. -/
def SigningMethodHS256 : SigningMethod := { family := .HMAC, alg := lit "HS256" }

/-- A `jwt.Token`; `HeaderAlg` is `token.Header["alg"]` as `%v` prints it. -/
structure Token where
  Method : SigningMethod
  HeaderAlg : GoString
  Claims : JWTClaims
  Valid : Bool
deriving DecidableEq

/-- Go `jwt.NewWithClaims(method, claims)`. -/
def NewWithClaims (method : SigningMethod) (claims : JWTClaims) : Token :=
  { Method := method, HeaderAlg := method.alg, Claims := claims, Valid := false }

/-- Go `GenerateJWT(userID, email)`.  `now i` is what the i-th call of
`time.Now()` returns, `SignedString` is `token.SignedString(key)`.  The token
is returned next to its signed string, so that its claims can be read. -/
def GenerateJWT (env : Env) (now : Nat → Time)
    (SignedString : Token → GoString → Except GoString GoString)
    (userID email : GoString) : Except GoString (Token × GoString) :=
  match GetEnv env (lit "JWT_SECRET") with
  | .error err => .error err
  | .ok secret =>
    let token := NewWithClaims SigningMethodHS256
      { UserID := userID
        Email := email
        Registered :=
          { ExpiresAt := some (NewNumericDate (timeAdd (now 0) (24 * Hour)))
            IssuedAt := some (NewNumericDate (now 1)) } }
    match SignedString token secret with
    | .error err => .error err
    | .ok signed => .ok (token, signed)

/-- The JWT library `github.com/golang-jwt/jwt/v5`, a dependency of the
repository, as three functions: the decoding of a token string without
verification, `token.Method.Verify` on the decoded token with a key (`none`
is success), and the validation of the claims. -/
structure JwtLib where
  parseUnverified : GoString → Except GoString Token
  verify : Token → GoString → Option GoString
  validate : JWTClaims → Option GoString

/-- A signature check: `token.Method.Verify` called with `key`. -/
structure VerifyCall where
  token : Token
  key : GoString
deriving DecidableEq

/-- The key-lookup callback `VerifyJWT` passes to `jwt.ParseWithClaims`. -/
def keyFunc (secret : GoString) (token : Token) : Except GoString GoString :=
  if token.Method.family ≠ MethodFamily.HMAC then
    .error (lit "unexpected signing method: " ++ token.HeaderAlg)
  else .ok secret

/-- Go `jwt.ParseWithClaims(tokenString, claims, keyFunc)` of the library: decode,
look the key up, verify the signature with that key, validate the claims.
An error of the callback ends parsing before any signature check.  The
signature checks made are returned next to the result. -/
def ParseWithClaims (lib : JwtLib) (tokenString : GoString)
    (keyFunc : Token → Except GoString GoString) : List VerifyCall × Except GoString Token :=
  match lib.parseUnverified tokenString with
  | .error err => ([], .error err)
  | .ok token =>
    match keyFunc token with
    | .error err =>
      ([], .error (lit "token is unverifiable: error while executing keyfunc: " ++ err))
    | .ok key =>
      match lib.verify token key with
      | some err =>
        ([{ token := token, key := key }], .error (lit "token signature is invalid: " ++ err))
      | none =>
        match lib.validate token.Claims with
        | some err =>
          ([{ token := token, key := key }], .error (lit "token has invalid claims: " ++ err))
        | none => ([{ token := token, key := key }], .ok { token with Valid := true })

/-- Go `VerifyJWT(tokenString)`, with the signature checks it caused. -/
def VerifyJWT (env : Env) (lib : JwtLib) (tokenString : GoString) :
    List VerifyCall × Except GoString JWTClaims :=
  match GetEnv env (lit "JWT_SECRET") with
  | .error err => ([], .error err)
  | .ok secret =>
    match ParseWithClaims lib tokenString (keyFunc secret) with
    | (calls, .error err) => (calls, .error err)
    | (calls, .ok token) =>
      if token.Valid then (calls, .ok token.Claims)
      else (calls, .error (lit "invalid token"))

/-! ## `configs/database.go` -/

/-- True when every byte of `s` is ASCII. -/
def isASCII (s : GoString) : Bool := s.all fun c => c.toNat < 0x80

/-- The lower-case form of an ASCII byte. -/
def lowerByte (c : UInt8) : UInt8 :=
  if 65 ≤ c.toNat && c.toNat ≤ 90 then c + 32 else c

/-- Go `strings.ToLower(s)`: an ASCII string is lowered byte by byte; a string
with a non-ASCII byte is mapped rune by rune with `unicode.ToLower`, which is
the parameter `unicodeLower`. -/
def ToLower (unicodeLower : GoString → GoString) (s : GoString) : GoString :=
  if isASCII s then s.map lowerByte else unicodeLower s

/-- A call that leaves the process, or prints, during `ConnectDatabase`. -/
inductive DbCall
  | sqlOpen (driverName dsn : GoString)
  | ping (driverName dsn : GoString)
  | queryRow (driverName dsn query arg : GoString)
  | exec (driverName dsn statement : GoString)
  | close (driverName dsn : GoString)
  | gormOpen (dialect dsn : GoString)
  | printf (text : GoString)
deriving DecidableEq

/-- The outcome of `QueryRow(...).Scan(&exists)`: a row, `sql.ErrNoRows`, or
another error. -/
inductive ScanResult
  | found
  | noRows
  | failed (err : GoString)
deriving DecidableEq

/-- The database servers and drivers: what each outside call answers
(`none` is a nil error). -/
structure DbWorld where
  sqlOpen : GoString → GoString → Option GoString
  ping : GoString → GoString → Option GoString
  queryRow : GoString → GoString → GoString → GoString → ScanResult
  exec : GoString → GoString → GoString → Option GoString
  gormOpen : GoString → GoString → Option GoString

/-- An open `*gorm.DB`: the dialect and the connection string it was opened
with. -/
structure DB where
  dialect : GoString
  dsn : GoString
deriving DecidableEq

/-- Go `gorm.Open(dialect.Open(dsn), &gorm.Config{})`. -/
def gormOpen (w : DbWorld) (dialect dsn : GoString) : List DbCall × Except GoString DB :=
  match w.gormOpen dialect dsn with
  | some err => ([.gormOpen dialect dsn], .error err)
  | none => ([.gormOpen dialect dsn], .ok { dialect := dialect, dsn := dsn })

/-- Go `buildMySQLDSN()`. -/
def buildMySQLDSN (env : Env) : Except GoString GoString :=
  let host := GetEnvOrDefault env (lit "DB_HOST") (lit "localhost")
  let port := GetEnvOrDefault env (lit "DB_PORT") (lit "3306")
  match GetEnv env (lit "DB_USERNAME") with
  | .error _ => .error (lit "DB_USERNAME is required for MySQL connection")
  | .ok user =>
    match GetEnv env (lit "DB_PASSWORD") with
    | .error _ => .error (lit "DB_PASSWORD is required for MySQL connection")
    | .ok password =>
      match GetEnv env (lit "DB_DATABASE") with
      | .error _ => .error (lit "DB_DATABASE is required for MySQL connection")
      | .ok dbname =>
        .ok (user ++ lit ":" ++ password ++ lit "@tcp(" ++ host ++ lit ":" ++ port ++ lit ")/"
          ++ dbname ++ lit "?charset=utf8mb4&parseTime=True&loc=Local")

/-- Go `buildPostgresDSN()`. -/
def buildPostgresDSN (env : Env) : Except GoString GoString :=
  let host := GetEnvOrDefault env (lit "DB_HOST") (lit "localhost")
  let port := GetEnvOrDefault env (lit "DB_PORT") (lit "5432")
  match GetEnv env (lit "DB_USERNAME") with
  | .error _ => .error (lit "DB_USERNAME is required for PostgreSQL connection")
  | .ok user =>
    match GetEnv env (lit "DB_PASSWORD") with
    | .error _ => .error (lit "DB_PASSWORD is required for PostgreSQL connection")
    | .ok password =>
      match GetEnv env (lit "DB_DATABASE") with
      | .error _ => .error (lit "DB_DATABASE is required for PostgreSQL connection")
      | .ok dbname =>
        let sslmode := GetEnvOrDefault env (lit "DB_SSLMODE") (lit "disable")
        .ok (lit "host=" ++ host ++ lit " user=" ++ user ++ lit " password=" ++ password
          ++ lit " dbname=" ++ dbname ++ lit " port=" ++ port ++ lit " sslmode=" ++ sslmode
          ++ lit " TimeZone=Asia/Jakarta")

/-- Go `connectMySQL()`. -/
def connectMySQL (env : Env) (w : DbWorld) : List DbCall × Except GoString DB :=
  match GetEnv env (lit "DB_URL") with
  | .ok dbURL => gormOpen w (lit "mysql") dbURL
  | .error _ =>
    match buildMySQLDSN env with
    | .error err => ([], .error err)
    | .ok dbURL => gormOpen w (lit "mysql") dbURL

/-- Go `connectPostgres()`. -/
def connectPostgres (env : Env) (w : DbWorld) : List DbCall × Except GoString DB :=
  match GetEnv env (lit "DB_URL") with
  | .ok dbURL => gormOpen w (lit "postgres") dbURL
  | .error _ =>
    match buildPostgresDSN env with
    | .error err => ([], .error err)
    | .ok dbURL => gormOpen w (lit "postgres") dbURL

/-- Go `connectSQLite()`. -/
def connectSQLite (env : Env) (w : DbWorld) : List DbCall × Except GoString DB :=
  let dbPath := GetEnvOrDefault env (lit "DB_PATH") (lit "database/database.sqlite")
  gormOpen w (lit "sqlite") dbPath

/-- The part of `ensureMySQLDatabase` and `ensurePostgresDatabase` after the
connection string is built: open, ping, look the database up, create it when
there is no row; the deferred `Close` runs on every path after a successful
open.  `server` is the name used in the error messages. -/
def provision (w : DbWorld) (driverName server dsn query dbname createStmt : GoString) :
    List DbCall × Option GoString :=
  match w.sqlOpen driverName dsn with
  | some err =>
    ([.sqlOpen driverName dsn],
      some (lit "failed to connect to " ++ server ++ lit " server: " ++ err))
  | none =>
    match w.ping driverName dsn with
    | some err =>
      ([.sqlOpen driverName dsn, .ping driverName dsn, .close driverName dsn],
        some (lit "failed to ping " ++ server ++ lit " server: " ++ err))
    | none =>
      match w.queryRow driverName dsn query dbname with
      | .failed err =>
        ([.sqlOpen driverName dsn, .ping driverName dsn,
          .queryRow driverName dsn query dbname, .close driverName dsn],
          some (lit "failed to check database existence: " ++ err))
      | .found =>
        ([.sqlOpen driverName dsn, .ping driverName dsn,
          .queryRow driverName dsn query dbname, .close driverName dsn], none)
      | .noRows =>
        match w.exec driverName dsn createStmt with
        | some err =>
          ([.sqlOpen driverName dsn, .ping driverName dsn,
            .queryRow driverName dsn query dbname, .exec driverName dsn createStmt,
            .close driverName dsn],
            some (lit "failed to create database: " ++ err))
        | none =>
          ([.sqlOpen driverName dsn, .ping driverName dsn,
            .queryRow driverName dsn query dbname, .exec driverName dsn createStmt,
            .printf (lit "Database " ++ [39] ++ dbname ++ [39] ++ lit " created successfully\n"),
            .close driverName dsn], none)

/-- Go `ensureMySQLDatabase()`: the calls made and the returned error. -/
def ensureMySQLDatabase (env : Env) (w : DbWorld) : List DbCall × Option GoString :=
  let host := GetEnvOrDefault env (lit "DB_HOST") (lit "localhost")
  let port := GetEnvOrDefault env (lit "DB_PORT") (lit "3306")
  match GetEnv env (lit "DB_USERNAME") with
  | .error _ => ([], some (lit "DB_USERNAME is required for MySQL connection"))
  | .ok user =>
    match GetEnv env (lit "DB_PASSWORD") with
    | .error _ => ([], some (lit "DB_PASSWORD is required for MySQL connection"))
    | .ok password =>
      match GetEnv env (lit "DB_DATABASE") with
      | .error _ => ([], some (lit "DB_DATABASE is required for MySQL connection"))
      | .ok dbname =>
        let dsn := user ++ lit ":" ++ password ++ lit "@tcp(" ++ host ++ lit ":" ++ port
          ++ lit ")/?charset=utf8mb4&parseTime=True&loc=Local"
        provision w (lit "mysql") (lit "MySQL") dsn
          (lit "SELECT 1 FROM INFORMATION_SCHEMA.SCHEMATA WHERE SCHEMA_NAME = ?") dbname
          (lit "CREATE DATABASE IF NOT EXISTS " ++ [96] ++ dbname ++ [96]
            ++ lit " CHARACTER SET utf8mb4 COLLATE utf8mb4_unicode_ci")

/-- Go `ensurePostgresDatabase()`: the calls made and the returned error. -/
def ensurePostgresDatabase (env : Env) (w : DbWorld) : List DbCall × Option GoString :=
  let host := GetEnvOrDefault env (lit "DB_HOST") (lit "localhost")
  let port := GetEnvOrDefault env (lit "DB_PORT") (lit "5432")
  match GetEnv env (lit "DB_USERNAME") with
  | .error _ => ([], some (lit "DB_USERNAME is required for PostgreSQL connection"))
  | .ok user =>
    match GetEnv env (lit "DB_PASSWORD") with
    | .error _ => ([], some (lit "DB_PASSWORD is required for PostgreSQL connection"))
    | .ok password =>
      match GetEnv env (lit "DB_DATABASE") with
      | .error _ => ([], some (lit "DB_DATABASE is required for PostgreSQL connection"))
      | .ok dbname =>
        let sslmode := GetEnvOrDefault env (lit "DB_SSLMODE") (lit "disable")
        let dsn := lit "host=" ++ host ++ lit " user=" ++ user ++ lit " password=" ++ password
          ++ lit " dbname=postgres port=" ++ port ++ lit " sslmode=" ++ sslmode
        provision w (lit "pgx") (lit "PostgreSQL") dsn
          (lit "SELECT 1 FROM pg_database WHERE datname = $1") dbname
          (lit "CREATE DATABASE " ++ dbname)

/-- The end of `ConnectDatabase`: an error of the connection is wrapped with
the engine name. -/
def finishConnect (dbType : GoString) (r : List DbCall × Except GoString DB) :
    List DbCall × Except GoString DB :=
  match r with
  | (calls, .error err) =>
    (calls, .error (lit "failed to connect to " ++ dbType ++ lit " database: " ++ err))
  | (calls, .ok db) => (calls, .ok db)

/-- The arm `case "mysql"` of the switch of `ConnectDatabase`, up to the
return. -/
def caseMySQL (dbType : GoString) (env : Env) (w : DbWorld) :
    List DbCall × Except GoString DB :=
  match ensureMySQLDatabase env w with
  | (calls, some err) => (calls, .error err)
  | (calls, none) =>
    let r := finishConnect dbType (connectMySQL env w)
    (calls ++ r.1, r.2)

/-- The arm `case "postgres", "pgql", "postgresql"`, up to the return. -/
def casePostgres (dbType : GoString) (env : Env) (w : DbWorld) :
    List DbCall × Except GoString DB :=
  match ensurePostgresDatabase env w with
  | (calls, some err) => (calls, .error err)
  | (calls, none) =>
    let r := finishConnect dbType (connectPostgres env w)
    (calls ++ r.1, r.2)

/-- The arm `case "sqlite"`, up to the return. -/
def caseSQLite (dbType : GoString) (env : Env) (w : DbWorld) :
    List DbCall × Except GoString DB :=
  finishConnect dbType (connectSQLite env w)

/-- Go `ConnectDatabase()`: the outside calls made, in order, and the result. -/
def ConnectDatabase (unicodeLower : GoString → GoString) (env : Env) (w : DbWorld) :
    List DbCall × Except GoString DB :=
  let dbType := ToLower unicodeLower (GetEnvOrDefault env (lit "DB_DRIVER") (lit "sqlite"))
  if dbType = lit "mysql" then caseMySQL dbType env w
  else if dbType = lit "postgres" ∨ dbType = lit "pgql" ∨ dbType = lit "postgresql" then
    casePostgres dbType env w
  else if dbType = lit "sqlite" then caseSQLite dbType env w
  else
    ([], .error (lit "unsupported database type: " ++ dbType
      ++ lit ". Supported types: mysql, postgres, sqlite"))

/-! ## Sample values for the witnesses -/

/-- A token whose header declares the algorithm "none". -/
def noneToken : Token :=
  { Method := { family := .None, alg := lit "none" }
    HeaderAlg := lit "none"
    Claims := { UserID := lit "1", Email := lit "a@b.c",
                Registered := { ExpiresAt := none, IssuedAt := none } }
    Valid := false }

/-- A library double that decodes every string to `noneToken` and would accept
every signature and every claim set. -/
def acceptingLib : JwtLib :=
  { parseUnverified := fun _ => .ok noneToken
    verify := fun _ _ => none
    validate := fun _ => none }

/-- A clock whose first two reads fall in two consecutive seconds, 0.2 s
apart. -/
def straddlingClock : Nat → Time :=
  fun i => if i = 0 then 1700000000900000000 else 1700000001100000000

/-- A clock that returns the same instant on every read. -/
def frozenClock : Nat → Time := fun _ => 1700000000900000000

/-- A signer double that always succeeds. -/
def signerDouble : Token → GoString → Except GoString GoString :=
  fun _ _ => .ok (lit "h.c.s")

/-- The environment in which exactly the listed variables are set. -/
def envOf (vars : List (GoString × GoString)) : Env :=
  fun key => (vars.lookup key).getD []

/-- An environment that selects MySQL and gives the full connection URL, but
none of the discrete credentials. -/
def urlOnlyEnv : Env :=
  envOf [(lit "DB_DRIVER", lit "mysql"), (lit "DB_URL", lit "app:pw@tcp(db:3306)/shop")]

/-- An environment that selects MySQL in mixed case and sets everything but
DB_USERNAME. -/
def noUserEnv : Env :=
  envOf [(lit "DB_DRIVER", lit "MySQL"), (lit "DB_PASSWORD", lit "pw"),
    (lit "DB_DATABASE", lit "shop"), (lit "DB_URL", lit "app:pw@tcp(db:3306)/shop")]

/-- An environment that selects PostgreSQL under the name "PgQL". -/
def pgqlEnv : Env :=
  envOf [(lit "DB_DRIVER", lit "PgQL"), (lit "DB_USERNAME", lit "app")]

/-- The token `GenerateJWT` builds for user 42 with the given expiry and issue
times. -/
def sampleToken (exp iat : Time) : Token :=
  NewWithClaims SigningMethodHS256
    { UserID := lit "42", Email := lit "a@b.c",
      Registered := { ExpiresAt := some exp, IssuedAt := some iat } }

/-- An environment that selects MySQL, sets the three credentials and gives a
connection URL that differs from what the credentials would assemble. -/
def urlAndCredentialsEnv : Env :=
  envOf [(lit "DB_DRIVER", lit "mysql"), (lit "DB_URL", lit "app:pw@tcp(db:3306)/shop"),
    (lit "DB_USERNAME", lit "root"), (lit "DB_PASSWORD", lit "pw"),
    (lit "DB_DATABASE", lit "shop")]

/-- An environment that names an engine the code does not know. -/
def oracleEnv : Env := envOf [(lit "DB_DRIVER", lit "Oracle")]

/-- A world in which every server answers, every database exists and every
connection opens. -/
def reachableWorld : DbWorld :=
  { sqlOpen := fun _ _ => none
    ping := fun _ _ => none
    queryRow := fun _ _ _ _ => .found
    exec := fun _ _ _ => none
    gormOpen := fun _ _ => none }


/-! ## Lemmas on `Split` and `Join` -/

theorem Split_ne_nil (s : GoString) : Split s ≠ [] := by
  cases s with
  | nil => simp [Split]
  | cons c cs =>
    unfold Split
    split
    · simp
    · split <;> simp

theorem Join_Split (s : GoString) : Join (Split s) = s := by
  induction s with
  | nil => simp [Split, Join]
  | cons c cs ih =>
    unfold Split
    split
    · rename_i h
      cases hs : Split cs with
      | nil => exact absurd hs (Split_ne_nil cs)
      | cons l ls =>
        rw [hs] at ih
        simp [Join, ih, h]
    · cases hs : Split cs with
      | nil => exact absurd hs (Split_ne_nil cs)
      | cons l ls =>
        rw [hs] at ih
        cases ls with
        | nil => simpa [Join] using ih
        | cons l2 ls2 =>
          simp only [Join] at ih ⊢
          simp [ih]

theorem Split_no_nl (s : GoString) : ∀ l ∈ Split s, nl ∉ l := by
  induction s with
  | nil => simp [Split]
  | cons c cs ih =>
    unfold Split
    split
    · intro l hl
      simp only [List.mem_cons] at hl
      rcases hl with rfl | hl
      · simp
      · exact ih l hl
    · rename_i h
      cases hs : Split cs with
      | nil => exact absurd hs (Split_ne_nil cs)
      | cons l0 ls =>
        rw [hs] at ih
        intro l hl
        simp only [List.mem_cons] at hl
        rcases hl with rfl | hl
        · intro hmem
          simp only [List.mem_cons] at hmem
          rcases hmem with h1 | h1
          · exact h h1.symm
          · exact ih l0 (List.mem_cons_self _ _) h1
        · exact ih l (List.mem_cons_of_mem _ hl)

theorem Split_of_no_nl (l : GoString) (h : nl ∉ l) : Split l = [l] := by
  induction l with
  | nil => simp [Split]
  | cons c cs ih =>
    simp only [List.mem_cons, not_or] at h
    unfold Split
    rw [if_neg (fun hc => h.1 hc.symm), ih h.2]

theorem Split_append_nl (l rest : GoString) (h : nl ∉ l) :
    Split (l ++ nl :: rest) = l :: Split rest := by
  induction l with
  | nil => simp [Split]
  | cons c cs ih =>
    simp only [List.mem_cons, not_or] at h
    show Split (c :: (cs ++ nl :: rest)) = _
    rw [Split, if_neg (fun hc => h.1 hc.symm), ih h.2]

theorem Split_Join (ls : List GoString) (hne : ls ≠ []) (h : ∀ l ∈ ls, nl ∉ l) :
    Split (Join ls) = ls := by
  induction ls with
  | nil => exact absurd rfl hne
  | cons l rest ih =>
    cases rest with
    | nil => simpa [Join] using Split_of_no_nl l (h l (List.mem_cons_self _ _))
    | cons l2 rest2 =>
      simp only [Join]
      rw [Split_append_nl l _ (h l (List.mem_cons_self _ _))]
      rw [ih (by simp) (fun x hx => h x (List.mem_cons_of_mem _ hx))]

theorem Join_append_singleton (ls : List GoString) (hne : ls ≠ []) (l : GoString) :
    Join (ls ++ [l]) = Join ls ++ nl :: l := by
  induction ls with
  | nil => exact absurd rfl hne
  | cons a rest ih =>
    cases rest with
    | nil => simp [Join]
    | cons b rest2 =>
      have h1 : Join ((a :: b :: rest2) ++ [l]) = a ++ nl :: Join ((b :: rest2) ++ [l]) := rfl
      rw [h1, ih (by simp)]
      simp [Join]

/-! ## The loop of `updateEnvKey` -/

theorem loopBody_eq (key value : GoString) (st : LoopState) (line : GoString) :
    loopBody key value st line =
      { keyFound := st.keyFound || lineMatches key line,
        updatedLines := st.updatedLines ++ [rewriteLine key value line] } := by
  unfold loopBody rewriteLine lineMatches isBlankLine isCommentLine
  by_cases h1 : TrimSpace line = []
  · simp [h1]
  · by_cases h2 : HasPrefix (TrimSpace line) (lit "#") = true
    · simp [h1, h2]
    · by_cases h3 : HasPrefix (TrimSpace line) (key ++ lit "=") = true
      · simp [h1, h2, h3]
      · simp [h1, h2, h3]

theorem foldl_loopBody (key value : GoString) (lines : List GoString) (st : LoopState) :
    lines.foldl (loopBody key value) st =
      { keyFound := st.keyFound || lines.any (lineMatches key),
        updatedLines := st.updatedLines ++ lines.map (rewriteLine key value) } := by
  induction lines generalizing st with
  | nil => simp
  | cons l rest ih =>
    simp only [List.foldl_cons, ih, loopBody_eq, List.any_cons, List.map_cons]
    simp [Bool.or_assoc]

/-! ## Literals -/

theorem lit_eq_quote : lit "=\"" = [61, 34] := by decide
theorem lit_quote : lit "\"" = [34] := by decide
theorem lit_hash : lit "#" = [35] := by decide
theorem lit_eq : lit "=" = [61] := by decide
theorem lit_nl : lit "\n" = [nl] := by decide

theorem envLine_eq (key value : GoString) :
    envLine key value = key ++ 61 :: 34 :: (value ++ [34]) := by
  simp [envLine, lit_eq_quote, lit_quote]

theorem envLine_no_nl (key value : GoString) (hk : nl ∉ key) (hv : nl ∉ value) :
    nl ∉ envLine key value := by
  rw [envLine_eq]
  simp only [List.mem_append, List.mem_cons, List.mem_singleton, not_or, List.not_mem_nil,
    or_false]
  refine ⟨hk, ?_, ?_, hv, ?_⟩ <;> decide

/-! ## `TrimSpace` on a freshly written line -/

theorem trimLeftAux_of_zero (n : Nat) (s : GoString) (h : leadingSpaceWidth s = 0) :
    trimLeftAux n s = s := by
  cases n <;> simp [trimLeftAux, h]

theorem trimRightRevAux_of_zero (n : Nat) (r : GoString) (h : trailingSpaceWidthRev r = 0) :
    trimRightRevAux n r = r := by
  cases n <;> simp [trimRightRevAux, h]

theorem isSpace2_snd_ascii (a b : UInt8) (hb : b.toNat < 0x80) : isSpace2 a b = false := by
  unfold isSpace2
  by_cases h1 : b = 0x85
  · subst h1; exact absurd hb (by decide)
  · by_cases h2 : b = 0xA0
    · subst h2; exact absurd hb (by decide)
    · simp [h1, h2]


theorem isSpace3_trd_ascii (a b c : UInt8) (hc : c.toNat < 0x80) : isSpace3 a b c = false := by
  unfold isSpace3
  have h1 : c ≠ 0x80 := by rintro rfl; exact absurd hc (by decide)
  have h2 : c ≠ 0xA8 := by rintro rfl; exact absurd hc (by decide)
  have h3 : c ≠ 0xA9 := by rintro rfl; exact absurd hc (by decide)
  have h4 : c ≠ 0xAF := by rintro rfl; exact absurd hc (by decide)
  have h5 : c ≠ 0x9F := by rintro rfl; exact absurd hc (by decide)
  have h6 : ¬ (0x80 ≤ c.toNat) := by omega
  simp [h1, h2, h3, h4, h5, h6]

theorem isSpace3_snd_ascii (a b c : UInt8) (hb : b.toNat < 0x80) : isSpace3 a b c = false := by
  unfold isSpace3
  have h1 : b ≠ 0x9A := by rintro rfl; exact absurd hb (by decide)
  have h2 : b ≠ 0x80 := by rintro rfl; exact absurd hb (by decide)
  have h3 : b ≠ 0x81 := by rintro rfl; exact absurd hb (by decide)
  simp [h1, h2, h3]

theorem isSpace2_fst_ascii (a b : UInt8) (ha : a.toNat < 0x80) : isSpace2 a b = false := by
  unfold isSpace2
  have h1 : a ≠ 0xC2 := by rintro rfl; exact absurd ha (by decide)
  simp [h1]

theorem isSpace3_fst_ascii (a b c : UInt8) (ha : a.toNat < 0x80) : isSpace3 a b c = false := by
  unfold isSpace3
  have h1 : a ≠ 0xE1 := by rintro rfl; exact absurd ha (by decide)
  have h2 : a ≠ 0xE2 := by rintro rfl; exact absurd ha (by decide)
  have h3 : a ≠ 0xE3 := by rintro rfl; exact absurd ha (by decide)
  simp [h1, h2, h3]

/-- A string that does not start with white space still does not once text
that begins with an ASCII, non-space byte is appended. -/
theorem leadingSpaceWidth_append (key rest : GoString) (d : UInt8)
    (hd : d.toNat < 0x80) (hds : isAsciiSpace d = false)
    (h : leadingSpaceWidth key = 0) : leadingSpaceWidth (key ++ d :: rest) = 0 := by
  match key, h with
  | [], _ =>
    cases rest with
    | nil => simp [leadingSpaceWidth, hds]
    | cons b r =>
      cases r with
      | nil => simp [leadingSpaceWidth, hds, isSpace2_fst_ascii d b hd]
      | cons c r2 =>
        simp [leadingSpaceWidth, hds, isSpace2_fst_ascii d b hd, isSpace3_fst_ascii d b c hd]
  | [a], h =>
    have ha : isAsciiSpace a = false := by
      by_contra hc
      simp [leadingSpaceWidth, hc] at h
    cases rest with
    | nil => simp [leadingSpaceWidth, ha, isSpace2_snd_ascii a d hd]
    | cons c r =>
      simp [leadingSpaceWidth, ha, isSpace2_snd_ascii a d hd, isSpace3_snd_ascii a d c hd]
  | [a, b], h =>
    have ha : isAsciiSpace a = false := by
      by_contra hc
      simp [leadingSpaceWidth, hc] at h
    have hab : isSpace2 a b = false := by
      by_contra hc
      simp [leadingSpaceWidth, ha, hc] at h
    simp [leadingSpaceWidth, ha, hab, isSpace3_trd_ascii a b d hd]
  | a :: b :: c :: t, h =>
    simpa [leadingSpaceWidth] using h

theorem TrimSpace_envLine (key value : GoString) (hsp : leadingSpaceWidth key = 0) :
    TrimSpace (envLine key value) = envLine key value := by
  have hl : leadingSpaceWidth (envLine key value) = 0 := by
    rw [envLine_eq]
    exact leadingSpaceWidth_append key _ 61 (by decide) (by decide) hsp
  have hr : trailingSpaceWidthRev (envLine key value).reverse = 0 := by
    rw [envLine_eq]
    simp only [List.reverse_append, List.reverse_cons, List.reverse_nil, List.nil_append,
      List.singleton_append, List.append_assoc, List.cons_append]
    generalize value.reverse ++ (34 :: 61 :: key.reverse) = r
    have h34 : isAsciiSpace 34 = false := by decide
    cases r with
    | nil => simp [trailingSpaceWidthRev, h34]
    | cons b r =>
      cases r with
      | nil => simp [trailingSpaceWidthRev, h34, isSpace2_snd_ascii b 34 (by decide)]
      | cons c r2 =>
        simp [trailingSpaceWidthRev, h34, isSpace2_snd_ascii b 34 (by decide),
          isSpace3_trd_ascii c b 34 (by decide)]
  unfold TrimSpace TrimLeft TrimRight
  rw [trimLeftAux_of_zero _ _ hl, trimRightRevAux_of_zero _ _ hr, List.reverse_reverse]

theorem lineMatches_envLine (key value : GoString) (hsp : leadingSpaceWidth key = 0)
    (hc : HasPrefix key (lit "#") = false) : lineMatches key (envLine key value) = true := by
  unfold lineMatches isBlankLine isCommentLine
  rw [TrimSpace_envLine key value hsp]
  have h1 : envLine key value ≠ [] := by rw [envLine_eq]; simp
  have h2 : HasPrefix (envLine key value) (lit "#") = false := by
    rw [envLine_eq, lit_hash]
    rw [lit_hash] at hc
    unfold HasPrefix at hc ⊢
    cases key with
    | nil => simp [List.isPrefixOf]
    | cons a t => simpa [List.isPrefixOf] using hc
  have h3 : HasPrefix (envLine key value) (key ++ lit "=") = true := by
    rw [envLine_eq, lit_eq]
    unfold HasPrefix
    rw [List.isPrefixOf_iff_prefix]
    exact ⟨34 :: (value ++ [34]), by simp⟩
  simp [h1, h2, h3]

theorem rewriteLine_envLine (key value : GoString) :
    rewriteLine key value (envLine key value) = envLine key value := by
  simp [rewriteLine]

theorem rewriteLine_idem (key value line : GoString) :
    rewriteLine key value (rewriteLine key value line) = rewriteLine key value line := by
  by_cases h : lineMatches key line = true
  · simp [rewriteLine, h]
  · simp [rewriteLine, h]

theorem lineMatches_nil (key : GoString) : lineMatches key [] = false := by
  have : TrimSpace [] = [] := by decide
  simp [lineMatches, isBlankLine, this]

/-! ## The two outcomes of `updateEnvKey` -/

theorem updateEnvKey_found (content key value : GoString)
    (h : (Split content).any (lineMatches key) = true) :
    updateEnvKey content key value = Join ((Split content).map (rewriteLine key value)) := by
  simp [updateEnvKey, foldl_loopBody, h]

theorem map_rewriteLine_of_no_match (key value : GoString) (lines : List GoString)
    (h : lines.any (lineMatches key) = false) : lines.map (rewriteLine key value) = lines := by
  induction lines with
  | nil => rfl
  | cons l rest ih =>
    simp only [List.any_cons, Bool.or_eq_false_iff] at h
    simp [rewriteLine, h.1, ih h.2]

theorem updateEnvKey_not_found (content key value : GoString)
    (h : (Split content).any (lineMatches key) = false) :
    updateEnvKey content key value =
      if content.length > 0 && !HasSuffix content (lit "\n") then
        Join (Split content ++ [[]] ++ [envLine key value])
      else Join (Split content ++ [envLine key value]) := by
  simp only [updateEnvKey, foldl_loopBody, h, map_rewriteLine_of_no_match key value _ h]
  by_cases hc : (content.length > 0 && !HasSuffix content (lit "\n")) = true
  · simp [hc]
  · simp [hc]

/-- What the code appends when no line matches: the separator of `Join` comes
on top of what the content already ends with. -/
theorem updateEnvKey_not_found_shape (content key value : GoString)
    (h : (Split content).any (lineMatches key) = false) :
    updateEnvKey content key value =
      if content.length > 0 && !HasSuffix content (lit "\n") then
        content ++ lit "\n" ++ lit "\n" ++ envLine key value
      else content ++ lit "\n" ++ envLine key value := by
  rw [updateEnvKey_not_found content key value h]
  split
  · rw [Join_append_singleton _ (by simp), Join_append_singleton _ (Split_ne_nil _), Join_Split,
      lit_nl]
    simp
  · rw [Join_append_singleton _ (Split_ne_nil _), Join_Split, lit_nl]
    simp

theorem updateEnvKey_Join_fixed (U : List GoString) (key value : GoString)
    (hne : U ≠ []) (hnl : ∀ l ∈ U, nl ∉ l)
    (hany : U.any (lineMatches key) = true) (hfix : U.map (rewriteLine key value) = U) :
    updateEnvKey (Join U) key value = Join U := by
  have hs : Split (Join U) = U := Split_Join U hne hnl
  rw [updateEnvKey_found _ _ _ (by rw [hs]; exact hany), hs, hfix]

theorem any_lineMatches_map_rewriteLine (key value : GoString) (lines : List GoString)
    (hm : lineMatches key (envLine key value) = true)
    (h : lines.any (lineMatches key) = true) :
    (lines.map (rewriteLine key value)).any (lineMatches key) = true := by
  simp only [List.any_eq_true, List.mem_map] at h ⊢
  obtain ⟨l, hl, hlm⟩ := h
  exact ⟨envLine key value, ⟨l, hl, by simp [rewriteLine, hlm]⟩, hm⟩

theorem idempotent_once_written (content key value : GoString)
    (hk : nl ∉ key) (hv : nl ∉ value)
    (hsp : leadingSpaceWidth key = 0) (hc : HasPrefix key (lit "#") = false) :
    updateEnvKey (updateEnvKey content key value) key value
      = updateEnvKey content key value := by
  have hm := lineMatches_envLine key value hsp hc
  have he := envLine_no_nl key value hk hv
  by_cases h : (Split content).any (lineMatches key) = true
  · rw [updateEnvKey_found content key value h]
    apply updateEnvKey_Join_fixed
    · simpa using Split_ne_nil content
    · intro l hl
      simp only [List.mem_map] at hl
      obtain ⟨l0, hl0, rfl⟩ := hl
      unfold rewriteLine
      split
      · exact he
      · exact Split_no_nl content l0 hl0
    · exact any_lineMatches_map_rewriteLine key value _ hm h
    · simp [List.map_map, Function.comp_def, rewriteLine_idem]
  · have h0 : (Split content).any (lineMatches key) = false := by simpa using h
    rw [updateEnvKey_not_found content key value h0]
    have hmap := map_rewriteLine_of_no_match key value _ h0
    split
    · apply updateEnvKey_Join_fixed
      · simp
      · intro l hl
        simp only [List.mem_append, List.mem_singleton] at hl
        rcases hl with (hl | rfl) | rfl
        · exact Split_no_nl content l hl
        · simp
        · exact he
      · simp [hm]
      · simp [hmap, rewriteLine_envLine, rewriteLine, lineMatches_nil]
    · apply updateEnvKey_Join_fixed
      · simp
      · intro l hl
        simp only [List.mem_append, List.mem_singleton] at hl
        rcases hl with hl | rfl
        · exact Split_no_nl content l hl
        · exact he
      · simp [hm]
      · simp [hmap, rewriteLine_envLine]

/-! ## Claims on `updateEnvKey` -/

/-- C1 (as amended): for every content, and for every key and value that
contain no newline, where the key does not begin with a white-space character
or with '#', applying `updateEnvKey` with the same key and value to its own
result returns that result unchanged, byte for byte. -/
theorem updateEnvKey_idempotent (content key value : GoString)
    (hk : nl ∉ key) (hv : nl ∉ value)
    (hsp : leadingSpaceWidth key = 0) (hc : HasPrefix key (lit "#") = false) :
    updateEnvKey (updateEnvKey content key value) key value
      = updateEnvKey content key value :=
  idempotent_once_written content key value hk hv hsp hc

/-- Witness of C1 as amended: a two-line file, the key JWT_SECRET and a value
without newline. -/
theorem updateEnvKey_idempotent_witness :
    nl ∉ lit "JWT_SECRET" ∧ nl ∉ lit "abc" ∧ leadingSpaceWidth (lit "JWT_SECRET") = 0 ∧
    HasPrefix (lit "JWT_SECRET") (lit "#") = false ∧
    updateEnvKey (updateEnvKey (lit "A=1\nJWT_SECRET=old") (lit "JWT_SECRET") (lit "abc"))
        (lit "JWT_SECRET") (lit "abc")
      = updateEnvKey (lit "A=1\nJWT_SECRET=old") (lit "JWT_SECRET") (lit "abc") :=
  ⟨by decide, by decide, by decide, by decide,
    updateEnvKey_idempotent (lit "A=1\nJWT_SECRET=old") (lit "JWT_SECRET") (lit "abc")
      (by decide) (by decide) (by decide) (by decide)⟩

/-- C1 as stated fails: a second application changes the result when the
value holds a newline, when the key holds a newline, when the key begins with
white space and when the key begins with '#'. -/
theorem updateEnvKey_not_idempotent_in_general :
    updateEnvKey (updateEnvKey (lit "") (lit "JWT_SECRET") (lit "a\nb")) (lit "JWT_SECRET")
        (lit "a\nb")
      ≠ updateEnvKey (lit "") (lit "JWT_SECRET") (lit "a\nb") ∧
    updateEnvKey (updateEnvKey (lit "") (lit "A\nB") (lit "v")) (lit "A\nB") (lit "v")
      ≠ updateEnvKey (lit "") (lit "A\nB") (lit "v") ∧
    updateEnvKey (updateEnvKey (lit "") (lit " K") (lit "v")) (lit " K") (lit "v")
      ≠ updateEnvKey (lit "") (lit " K") (lit "v") ∧
    updateEnvKey (updateEnvKey (lit "") (lit "#K") (lit "v")) (lit "#K") (lit "v")
      ≠ updateEnvKey (lit "") (lit "#K") (lit "v") := by
  refine ⟨?_, ?_, ?_, ?_⟩ <;> decide

/-- C2 (code at the failing input): on empty content, key JWT_SECRET and value
abc, `updateEnvKey` returns a newline followed by JWT_SECRET="abc", not the
bare line: the result starts with a blank line. -/
theorem updateEnvKey_empty_content_leading_newline :
    updateEnvKey (lit "") (lit "JWT_SECRET") (lit "abc") = lit "\nJWT_SECRET=\"abc\"" ∧
    updateEnvKey (lit "") (lit "JWT_SECRET") (lit "abc") ≠ lit "JWT_SECRET=\"abc\"" ∧
    (updateEnvKey (lit "") (lit "JWT_SECRET") (lit "abc")).head? = some nl := by
  refine ⟨?_, ?_, ?_⟩ <;> decide

/-- C3 (code at the failing inputs): with no line matching the key, content
that ends with a newline gets one more newline before the new line, and
content that does not end with a newline gets two, so a blank line always
precedes the appended line. -/
theorem updateEnvKey_append_inserts_blank_line :
    (Split (lit "A=1\n")).any (lineMatches (lit "B")) = false ∧
    updateEnvKey (lit "A=1\n") (lit "B") (lit "x") = lit "A=1\n\nB=\"x\"" ∧
    updateEnvKey (lit "A=1\n") (lit "B") (lit "x") ≠ lit "A=1\n" ++ envLine (lit "B") (lit "x") ∧
    (Split (lit "A=1")).any (lineMatches (lit "B")) = false ∧
    updateEnvKey (lit "A=1") (lit "B") (lit "x") = lit "A=1\n\nB=\"x\"" ∧
    updateEnvKey (lit "A=1") (lit "B") (lit "x")
      ≠ lit "A=1" ++ lit "\n" ++ envLine (lit "B") (lit "x") := by
  refine ⟨?_, ?_, ?_, ?_, ?_, ?_⟩ <;> decide

/-- C4: for every content with at least one line matching the key,
`updateEnvKey` returns the newline-join of the newline-split lines of the
content in which each line that is not blank, not a '#' comment and whose
trimmed text starts with `key=` is replaced by `key="value"` and every other
line is kept verbatim at its position; blank and comment lines never match. -/
theorem updateEnvKey_rewrites_matching_lines (content key value : GoString)
    (h : ∃ line ∈ Split content, lineMatches key line = true) :
    updateEnvKey content key value
      = Join ((Split content).map fun line =>
          if TrimSpace line ≠ [] ∧ HasPrefix (TrimSpace line) (lit "#") = false ∧
              HasPrefix (TrimSpace line) (key ++ lit "=") = true
          then envLine key value else line) ∧
    (∀ line, isBlankLine line = true ∨ isCommentLine line = true →
      lineMatches key line = false ∧ rewriteLine key value line = line) := by
  constructor
  · rw [updateEnvKey_found content key value (by simpa [List.any_eq_true] using h)]
    congr 1
    apply List.map_congr_left
    intro line _
    unfold rewriteLine lineMatches isBlankLine isCommentLine
    by_cases h1 : TrimSpace line = []
    · simp [h1]
    · by_cases h2 : HasPrefix (TrimSpace line) (lit "#") = true
      · simp [h1, h2]
      · simp [h1, h2]
  · intro line hl
    have hm : lineMatches key line = false := by
      unfold lineMatches
      rcases hl with hl | hl <;> simp [hl]
    exact ⟨hm, by simp [rewriteLine, hm]⟩

/-- Witness of C4: a file with a comment, a blank line, another key and an
indented, unquoted JWT_SECRET line. -/
theorem updateEnvKey_rewrites_matching_lines_witness :
    (∃ line ∈ Split (lit "# c\n\nA=1\n  JWT_SECRET=old"),
      lineMatches (lit "JWT_SECRET") line = true) ∧
    updateEnvKey (lit "# c\n\nA=1\n  JWT_SECRET=old") (lit "JWT_SECRET") (lit "abc")
      = lit "# c\n\nA=1\nJWT_SECRET=\"abc\"" :=
  ⟨⟨lit "  JWT_SECRET=old", by decide, by decide⟩,
    ((updateEnvKey_rewrites_matching_lines (lit "# c\n\nA=1\n  JWT_SECRET=old")
      (lit "JWT_SECRET") (lit "abc") ⟨lit "  JWT_SECRET=old", by decide, by decide⟩).1).trans
      (by decide)⟩

/-! ## Claims on `HashPassword` -/

/-- The guard of `HashPassword` measures bytes: a password of fewer than 8
bytes is refused with the policy error and the hash primitive is not called. -/
theorem HashPassword_short_bytes_rejected
    (gen : GoString → Nat → Except GoString GoString) (password : GoString)
    (h : password.length < 8) :
    HashPassword gen password
      = ([], .error (lit "password must be at least 8 characters")) := by
  simp [HashPassword, h]

/-- The hash primitive is called exactly when the password has at least 8
bytes, once, with the password and the default cost. -/
theorem HashPassword_calls (gen : GoString → Nat → Except GoString GoString)
    (password : GoString) :
    (HashPassword gen password).1
      = if password.length < 8 then [] else [{ password := password, cost := DefaultCost }] := by
  unfold HashPassword
  split
  · rfl
  · split <;> rfl

/-- C5 (code at the failing input): the password "pässwör" has 7 characters
and 9 bytes; `HashPassword` does not refuse it, it calls the hash primitive
with it and returns what the primitive returns. -/
theorem HashPassword_accepts_seven_characters
    (gen : GoString → Nat → Except GoString GoString) :
    RuneCountInString (lit "pässwör") = 7 ∧ (lit "pässwör").length = 9 ∧
    (HashPassword gen (lit "pässwör")).1
      = [{ password := lit "pässwör", cost := DefaultCost }] ∧
    (HashPassword gen (lit "pässwör")).2 = gen (lit "pässwör") DefaultCost := by
  refine ⟨by decide, by decide, ?_, ?_⟩
  · rw [HashPassword_calls]
    rfl
  · have h : ¬ (lit "pässwör").length < 8 := by decide
    unfold HashPassword
    rw [if_neg h]
    cases gen (lit "pässwör") DefaultCost <;> rfl

/-! ## Claims on `VerifyJWT` -/

/-- C6: for every token whose signing method is not of the HMAC family, the
key-lookup callback of `VerifyJWT` returns the error "unexpected signing
method: alg" whatever the secret, hence never the secret; `VerifyJWT` on a
string that decodes to such a token returns an error and no signature check
is made, and with JWT_SECRET set the error is the one of the callback as the
library wraps it. -/
theorem VerifyJWT_rejects_non_HMAC (env : Env) (lib : JwtLib) (tokenString : GoString)
    (token : Token) (hparse : lib.parseUnverified tokenString = .ok token)
    (hm : token.Method.family ≠ MethodFamily.HMAC) :
    (∀ secret, keyFunc secret token
        = .error (lit "unexpected signing method: " ++ token.HeaderAlg)) ∧
    (∀ secret, keyFunc secret token ≠ .ok secret) ∧
    (VerifyJWT env lib tokenString).1 = [] ∧
    (∃ err, (VerifyJWT env lib tokenString).2 = .error err) ∧
    (env (lit "JWT_SECRET") ≠ [] →
      (VerifyJWT env lib tokenString).2
        = .error (lit "token is unverifiable: error while executing keyfunc: "
            ++ (lit "unexpected signing method: " ++ token.HeaderAlg))) := by
  have hk : ∀ secret, keyFunc secret token
      = .error (lit "unexpected signing method: " ++ token.HeaderAlg) := by
    intro secret
    simp [keyFunc, hm]
  have hp : ∀ secret, ParseWithClaims lib tokenString (keyFunc secret)
      = ([], .error (lit "token is unverifiable: error while executing keyfunc: "
            ++ (lit "unexpected signing method: " ++ token.HeaderAlg))) := by
    intro secret
    simp [ParseWithClaims, hparse, hk]
  refine ⟨hk, ?_, ?_, ?_, ?_⟩
  · intro secret h
    rw [hk] at h
    cases h
  · unfold VerifyJWT
    cases hg : GetEnv env (lit "JWT_SECRET") with
    | error e => rfl
    | ok secret => simp [hp]
  · unfold VerifyJWT
    cases hg : GetEnv env (lit "JWT_SECRET") with
    | error e => exact ⟨e, rfl⟩
    | ok secret =>
      refine ⟨lit "token is unverifiable: error while executing keyfunc: "
            ++ (lit "unexpected signing method: " ++ token.HeaderAlg), ?_⟩
      simp [hp]
  · intro hs
    unfold VerifyJWT
    have hg : GetEnv env (lit "JWT_SECRET") = .ok (env (lit "JWT_SECRET")) := by
      simp [GetEnv, hs]
    simp [hg, hp]

/-- Witness of C6: the token with algorithm "none" is refused although the
library double would accept its signature. -/
theorem VerifyJWT_rejects_non_HMAC_witness :
    acceptingLib.parseUnverified (lit "e30.e30.") = .ok noneToken ∧
    noneToken.Method.family ≠ MethodFamily.HMAC ∧
    (VerifyJWT (fun _ => lit "s3cret") acceptingLib (lit "e30.e30.")).1 = [] ∧
    (VerifyJWT (fun _ => lit "s3cret") acceptingLib (lit "e30.e30.")).2
      = .error (lit "token is unverifiable: error while executing keyfunc: "
          ++ (lit "unexpected signing method: " ++ lit "none")) :=
  have h := VerifyJWT_rejects_non_HMAC (fun _ => lit "s3cret") acceptingLib (lit "e30.e30.")
    noneToken rfl (by decide)
  ⟨rfl, by decide, h.2.2.1, h.2.2.2.2 (by decide)⟩

/-! ## Claims on `GenerateJWT` -/

theorem truncate_add_day (t : Int) :
    t + 24 * (3600 * 1000000000)
        - (t + 24 * (3600 * 1000000000) + 62135596800 * 1000000000) % 1000000000
      = t - (t + 62135596800 * 1000000000) % 1000000000 + 24 * (3600 * 1000000000) := by
  omega

theorem NewNumericDate_add_day (t : Time) :
    NewNumericDate (timeAdd t (24 * Hour)) = NewNumericDate t + 24 * Hour := by
  unfold NewNumericDate timeTruncate timeAdd unixToInternal Hour Second
  exact truncate_add_day t

/-- Go `GenerateJWT` issues a token whenever JWT_SECRET is set and signing
succeeds. -/
theorem GenerateJWT_issues (env : Env) (now : Nat → Time)
    (sign : Token → GoString → Except GoString GoString) (userID email : GoString)
    (hs : env (lit "JWT_SECRET") ≠ [])
    (hsign : ∀ tok, ∃ signed, sign tok (env (lit "JWT_SECRET")) = .ok signed) :
    ∃ tok signed, GenerateJWT env now sign userID email = .ok (tok, signed) := by
  have hg : GetEnv env (lit "JWT_SECRET") = .ok (env (lit "JWT_SECRET")) := by
    simp [GetEnv, hs]
  unfold GenerateJWT
  rw [hg]
  simp only
  obtain ⟨signed, h⟩ := hsign (NewWithClaims SigningMethodHS256
      { UserID := userID
        Email := email
        Registered :=
          { ExpiresAt := some (NewNumericDate (timeAdd (now 0) (24 * Hour)))
            IssuedAt := some (NewNumericDate (now 1)) } })
  rw [h]
  exact ⟨_, _, rfl⟩

/-- What `GenerateJWT` computes: in every issued token expires_at comes from
the first call of `time.Now()` and issued_at from the second, each truncated
to the whole second, so expires_at = issued_at + 24 hours holds exactly when
the two calls return instants of the same second. -/
theorem GenerateJWT_expiry (env : Env) (now : Nat → Time)
    (sign : Token → GoString → Except GoString GoString) (userID email : GoString)
    (tok : Token) (signed : GoString)
    (h : GenerateJWT env now sign userID email = .ok (tok, signed)) :
    tok.Claims.Registered.ExpiresAt = some (NewNumericDate (now 0) + 24 * Hour) ∧
    tok.Claims.Registered.IssuedAt = some (NewNumericDate (now 1)) ∧
    (tok.Claims.Registered.ExpiresAt
        = tok.Claims.Registered.IssuedAt.map (fun iat => iat + 24 * Hour)
      ↔ NewNumericDate (now 0) = NewNumericDate (now 1)) := by
  unfold GenerateJWT at h
  cases hg : GetEnv env (lit "JWT_SECRET") with
  | error e => rw [hg] at h; cases h
  | ok secret =>
    rw [hg] at h
    simp only at h
    split at h
    · cases h
    · rename_i s hsig
      simp only [Except.ok.injEq, Prod.mk.injEq] at h
      obtain ⟨htok, _⟩ := h
      subst htok
      simp only [NewWithClaims, NewNumericDate_add_day, Option.map_some', Option.some.injEq,
        true_and]
      constructor
      · intro h2
        exact add_right_cancel h2
      · intro h2
        rw [h2]

/-- With a clock that returns the same instant twice, the issued token expires
exactly 24 hours after issued_at. -/
theorem GenerateJWT_expiry_witness :
    GenerateJWT (fun _ => lit "s3cret") frozenClock signerDouble (lit "42") (lit "a@b.c")
      = .ok (sampleToken 1700086400000000000 1700000000000000000, lit "h.c.s") ∧
    (sampleToken 1700086400000000000 1700000000000000000).Claims.Registered.ExpiresAt
      = (sampleToken 1700086400000000000 1700000000000000000).Claims.Registered.IssuedAt.map
          (fun iat => iat + 24 * Hour) :=
  ⟨by decide,
    (GenerateJWT_expiry (fun _ => lit "s3cret") frozenClock signerDouble (lit "42")
      (lit "a@b.c") (sampleToken 1700086400000000000 1700000000000000000) (lit "h.c.s")
      (by decide)).2.2.mpr (by decide)⟩

/-- C7 (code at the failing input): `GenerateJWT` calls `time.Now()` once for
expires_at and once more for issued_at; when the two calls return instants
0.2 s apart across a second boundary, the issued token has
expires_at = issued_at + 24 hours - 1 second, not issued_at + 24 hours. -/
theorem GenerateJWT_two_reads_straddle_second :
    GenerateJWT (fun _ => lit "s3cret") straddlingClock signerDouble (lit "42") (lit "a@b.c")
      = .ok (sampleToken 1700086400000000000 1700000001000000000, lit "h.c.s") ∧
    (1700086400000000000 : Time) ≠ 1700000001000000000 + 24 * Hour ∧
    (1700086400000000000 : Time) = 1700000001000000000 + 24 * Hour - Second := by
  refine ⟨by decide, by decide, by decide⟩

/-! ## Claims on `ConnectDatabase` -/

theorem ToLower_ascii (u : GoString → GoString) (s : GoString) (h : isASCII s = true) :
    ToLower u s = s.map lowerByte := by
  simp [ToLower, h]

theorem ConnectDatabase_mysql (u : GoString → GoString) (env : Env) (w : DbWorld)
    (h : ToLower u (GetEnvOrDefault env (lit "DB_DRIVER") (lit "sqlite")) = lit "mysql") :
    ConnectDatabase u env w = caseMySQL (lit "mysql") env w := by
  simp [ConnectDatabase, h]

theorem ensureMySQLDatabase_no_user (env : Env) (w : DbWorld)
    (h : env (lit "DB_USERNAME") = []) :
    ensureMySQLDatabase env w
      = ([], some (lit "DB_USERNAME is required for MySQL connection")) := by
  simp [ensureMySQLDatabase, GetEnv, h]

/-- With DB_URL set, `connectMySQL` on its own opens the connection with
exactly the value of DB_URL and reads no other variable. -/
theorem connectMySQL_uses_DB_URL (env : Env) (w : DbWorld)
    (h : env (lit "DB_URL") ≠ []) :
    connectMySQL env w = gormOpen w (lit "mysql") (env (lit "DB_URL")) := by
  simp [connectMySQL, GetEnv, h]

theorem ensureMySQLDatabase_no_password (env : Env) (w : DbWorld)
    (hu : env (lit "DB_USERNAME") ≠ []) (h : env (lit "DB_PASSWORD") = []) :
    ensureMySQLDatabase env w
      = ([], some (lit "DB_PASSWORD is required for MySQL connection")) := by
  simp [ensureMySQLDatabase, GetEnv, hu, h]

theorem ensureMySQLDatabase_no_database (env : Env) (w : DbWorld)
    (hu : env (lit "DB_USERNAME") ≠ []) (hp : env (lit "DB_PASSWORD") ≠ [])
    (h : env (lit "DB_DATABASE") = []) :
    ensureMySQLDatabase env w
      = ([], some (lit "DB_DATABASE is required for MySQL connection")) := by
  simp [ensureMySQLDatabase, GetEnv, hu, hp, h]

theorem caseMySQL_of_error (dbType : GoString) (env : Env) (w : DbWorld)
    (calls : List DbCall) (err : GoString)
    (h : ensureMySQLDatabase env w = (calls, some err)) :
    caseMySQL dbType env w = (calls, .error err) := by
  simp [caseMySQL, h]

/-- C8 (as amended): in every environment with engine mysql in which DB_URL is
set, `connectMySQL` opens the connection with exactly the value of DB_URL and
raises no missing-credential error, and whenever the provisioning step
succeeds the one connection `ConnectDatabase` opens after it uses exactly the
value of DB_URL; but the provisioning step runs first and makes DB_USERNAME,
DB_PASSWORD and DB_DATABASE mandatory although DB_URL is set: when one of
them is unset `ConnectDatabase` returns the missing-credential error that
names the first missing one, before any outside call. -/
theorem ConnectDatabase_mysql_with_DB_URL (u : GoString → GoString) (env : Env) (w : DbWorld)
    (hd : ToLower u (GetEnvOrDefault env (lit "DB_DRIVER") (lit "sqlite")) = lit "mysql")
    (hurl : env (lit "DB_URL") ≠ []) :
    connectMySQL env w = gormOpen w (lit "mysql") (env (lit "DB_URL")) ∧
    (∀ calls, ensureMySQLDatabase env w = (calls, none) →
      ConnectDatabase u env w
        = (calls ++ [DbCall.gormOpen (lit "mysql") (env (lit "DB_URL"))],
            match w.gormOpen (lit "mysql") (env (lit "DB_URL")) with
            | some err =>
              .error (lit "failed to connect to " ++ lit "mysql" ++ lit " database: " ++ err)
            | none => .ok { dialect := lit "mysql", dsn := env (lit "DB_URL") })) ∧
    (env (lit "DB_USERNAME") = [] →
      ConnectDatabase u env w
        = ([], .error (lit "DB_USERNAME is required for MySQL connection"))) ∧
    (env (lit "DB_USERNAME") ≠ [] → env (lit "DB_PASSWORD") = [] →
      ConnectDatabase u env w
        = ([], .error (lit "DB_PASSWORD is required for MySQL connection"))) ∧
    (env (lit "DB_USERNAME") ≠ [] → env (lit "DB_PASSWORD") ≠ [] →
      env (lit "DB_DATABASE") = [] →
      ConnectDatabase u env w
        = ([], .error (lit "DB_DATABASE is required for MySQL connection"))) := by
  have hc := connectMySQL_uses_DB_URL env w hurl
  have hcd := ConnectDatabase_mysql u env w hd
  refine ⟨hc, ?_, ?_, ?_, ?_⟩
  · intro calls he
    rw [hcd]
    unfold caseMySQL
    rw [he, hc]
    unfold gormOpen finishConnect
    cases w.gormOpen (lit "mysql") (env (lit "DB_URL")) <;> simp
  · intro h
    rw [hcd, caseMySQL_of_error _ env w _ _ (ensureMySQLDatabase_no_user env w h)]
  · intro hu h
    rw [hcd, caseMySQL_of_error _ env w _ _ (ensureMySQLDatabase_no_password env w hu h)]
  · intro hu hp h
    rw [hcd, caseMySQL_of_error _ env w _ _ (ensureMySQLDatabase_no_database env w hu hp h)]

/-- Witness of C8 as amended: with the credentials and DB_URL set and the
database present, the connection is opened with the value of DB_URL. -/
theorem ConnectDatabase_mysql_with_DB_URL_witness :
    ToLower id (GetEnvOrDefault urlAndCredentialsEnv (lit "DB_DRIVER") (lit "sqlite"))
      = lit "mysql" ∧
    urlAndCredentialsEnv (lit "DB_URL") ≠ [] ∧
    (ConnectDatabase id urlAndCredentialsEnv reachableWorld).2
      = .ok { dialect := lit "mysql", dsn := lit "app:pw@tcp(db:3306)/shop" } ∧
    (ConnectDatabase id urlAndCredentialsEnv reachableWorld).1.getLast?
      = some (DbCall.gormOpen (lit "mysql") (lit "app:pw@tcp(db:3306)/shop")) :=
  have h := (ConnectDatabase_mysql_with_DB_URL id urlAndCredentialsEnv reachableWorld
    (by decide) (by decide)).2.1 _ rfl
  ⟨by decide, by decide, by rw [h]; decide, by rw [h]; decide⟩

/-- C8 as stated fails: with DB_DRIVER=mysql and DB_URL set but DB_USERNAME
unset, `ConnectDatabase` returns the missing-credential error for DB_USERNAME
and opens no connection, whatever the servers would answer. -/
theorem ConnectDatabase_mysql_url_still_needs_credentials :
    ToLower id (GetEnvOrDefault urlOnlyEnv (lit "DB_DRIVER") (lit "sqlite")) = lit "mysql" ∧
    urlOnlyEnv (lit "DB_URL") = lit "app:pw@tcp(db:3306)/shop" ∧
    ConnectDatabase id urlOnlyEnv reachableWorld
      = ([], .error (lit "DB_USERNAME is required for MySQL connection")) := by
  refine ⟨by decide, by decide, by decide⟩

/-- C9: for every environment in which DB_DRIVER lowercases to mysql and
DB_USERNAME is unset, `ConnectDatabase` returns the error "DB_USERNAME is
required for MySQL connection" and makes no outside call at all (no
`sql.Open`, `Ping`, query or `gorm.Open`), whatever the other variables and
the servers are. -/
theorem ConnectDatabase_mysql_missing_username (u : GoString → GoString) (env : Env)
    (w : DbWorld)
    (hd : ToLower u (GetEnvOrDefault env (lit "DB_DRIVER") (lit "sqlite")) = lit "mysql")
    (hu : env (lit "DB_USERNAME") = []) :
    ConnectDatabase u env w
      = ([], .error (lit "DB_USERNAME is required for MySQL connection")) := by
  rw [ConnectDatabase_mysql u env w hd]
  simp [caseMySQL, ensureMySQLDatabase_no_user env w hu]

/-- Witness of C9: DB_DRIVER=MySQL with password, database and URL set but no
user name, against servers that would all answer. -/
theorem ConnectDatabase_mysql_missing_username_witness :
    ToLower id (GetEnvOrDefault noUserEnv (lit "DB_DRIVER") (lit "sqlite")) = lit "mysql" ∧
    noUserEnv (lit "DB_USERNAME") = [] ∧
    ConnectDatabase id noUserEnv reachableWorld
      = ([], .error (lit "DB_USERNAME is required for MySQL connection")) :=
  ⟨by decide, by decide,
    ConnectDatabase_mysql_missing_username id noUserEnv reachableWorld (by decide) (by decide)⟩

theorem caseSQLite_calls (dbType : GoString) (env : Env) (w : DbWorld) :
    (caseSQLite dbType env w).1
      = [DbCall.gormOpen (lit "sqlite")
          (GetEnvOrDefault env (lit "DB_PATH") (lit "database/database.sqlite"))] := by
  unfold caseSQLite connectSQLite gormOpen
  simp only
  split <;> rfl

/-- C10: the arm `ConnectDatabase` takes depends on the lowercased DB_DRIVER
value only.  Lowercasing an ASCII name lowers it byte by byte, so every casing
is covered.  The value mysql takes the MySQL arm; postgres, pgql and
postgresql all take the same PostgreSQL arm; sqlite, which is also the value
when DB_DRIVER is unset, takes the SQLite arm, whose only outside call is the
opening of the file (no provisioning); every other value returns, without any
outside call, the unsupported-type error that lists mysql, postgres, sqlite. -/
theorem ConnectDatabase_engine_selection (u : GoString → GoString) (env : Env) (w : DbWorld)
    (dbType : GoString)
    (hd : dbType = ToLower u (GetEnvOrDefault env (lit "DB_DRIVER") (lit "sqlite"))) :
    (∀ s, isASCII s = true → ToLower u s = s.map lowerByte) ∧
    (dbType = lit "mysql" → ConnectDatabase u env w = caseMySQL dbType env w) ∧
    (dbType = lit "postgres" ∨ dbType = lit "pgql" ∨ dbType = lit "postgresql" →
      ConnectDatabase u env w = casePostgres dbType env w) ∧
    (dbType = lit "sqlite" →
      ConnectDatabase u env w = caseSQLite dbType env w ∧
      (ConnectDatabase u env w).1
        = [DbCall.gormOpen (lit "sqlite")
            (GetEnvOrDefault env (lit "DB_PATH") (lit "database/database.sqlite"))]) ∧
    (env (lit "DB_DRIVER") = [] → dbType = lit "sqlite") ∧
    (dbType ≠ lit "mysql" ∧ dbType ≠ lit "postgres" ∧ dbType ≠ lit "pgql" ∧
        dbType ≠ lit "postgresql" ∧ dbType ≠ lit "sqlite" →
      ConnectDatabase u env w
        = ([], .error (lit "unsupported database type: " ++ dbType
            ++ lit ". Supported types: mysql, postgres, sqlite"))) := by
  refine ⟨fun s hs => ToLower_ascii u s hs, ?_, ?_, ?_, ?_, ?_⟩
  · intro h
    unfold ConnectDatabase
    simp only [← hd]
    rw [if_pos h]
  · intro h
    have hne : dbType ≠ lit "mysql" := by
      rcases h with h | h | h <;> rw [h] <;> decide
    unfold ConnectDatabase
    simp only [← hd]
    rw [if_neg hne, if_pos h]
  · intro h
    have hc : ConnectDatabase u env w = caseSQLite dbType env w := by
      have h1 : dbType ≠ lit "mysql" := by rw [h]; decide
      have h2 : ¬ (dbType = lit "postgres" ∨ dbType = lit "pgql" ∨ dbType = lit "postgresql") := by
        rw [h]; decide
      unfold ConnectDatabase
      simp only [← hd]
      rw [if_neg h1, if_neg h2, if_pos h]
    exact ⟨hc, by rw [hc, caseSQLite_calls]⟩
  · intro h
    rw [hd]
    have h1 : GetEnvOrDefault env (lit "DB_DRIVER") (lit "sqlite") = lit "sqlite" := by
      simp [GetEnvOrDefault, h]
    rw [h1, ToLower_ascii u _ (by decide)]
    decide
  · rintro ⟨h1, h2, h3, h4, h5⟩
    have hp : ¬ (dbType = lit "postgres" ∨ dbType = lit "pgql" ∨ dbType = lit "postgresql") := by
      rintro (h | h | h)
      · exact h2 h
      · exact h3 h
      · exact h4 h
    unfold ConnectDatabase
    simp only [← hd]
    rw [if_neg h1, if_neg hp, if_neg h5]

/-- Witness of C10: "PgQL" takes the PostgreSQL arm (and stops there at the
missing password), an unset DB_DRIVER opens the default SQLite file and
nothing else, and "Oracle" is refused. -/
theorem ConnectDatabase_engine_selection_witness :
    ConnectDatabase id pgqlEnv reachableWorld
      = ([], .error (lit "DB_PASSWORD is required for PostgreSQL connection")) ∧
    ConnectDatabase id (envOf []) reachableWorld
      = ([DbCall.gormOpen (lit "sqlite") (lit "database/database.sqlite")],
          .ok { dialect := lit "sqlite", dsn := lit "database/database.sqlite" }) ∧
    ConnectDatabase id oracleEnv reachableWorld
      = ([], .error (lit "unsupported database type: oracle. Supported types: mysql, postgres, sqlite")) :=
  ⟨((ConnectDatabase_engine_selection id pgqlEnv reachableWorld (lit "pgql") (by decide)).2.2.1
      (by decide)).trans (by decide),
    ((ConnectDatabase_engine_selection id (envOf []) reachableWorld (lit "sqlite")
      (by decide)).2.2.2.1 (by decide)).1.trans (by decide),
    ((ConnectDatabase_engine_selection id oracleEnv reachableWorld (lit "oracle")
      (by decide)).2.2.2.2.2 (by decide)).trans (by decide)⟩

end GoSkeleton
